import Mathlib

/-!
Shallow embedding of `2026-season.py`, a one-shot script that renders a
2026 Formula 1 season poster: a 3×4 grid of month blocks, each with a
Sunday-first 6×7 day matrix, underlines on race-weekend days, and a list
of race events (flag icon + "DD – NAME" text) below the grid.

The embedding follows the source: the static tables `race_sundays` and
`COUNTRY_FLAG_CODES`, the calendar computation behind Python's
`calendar.Calendar(firstweekday=6).monthdayscalendar(2026, month)`, the
underline-set and event-list computation of `draw_month`, the cached flag
resolution of `get_flag_image` (state passed explicitly, the filesystem
and network modelled as an environment of stage outcomes), and the
month-block placement loop of `make_poster`.
-/

set_option autoImplicit false

namespace Season2026

/-- The static race table of the script: `(month, day) ↦ event name`,
in source order (Python dicts preserve insertion order). -/
def race_sundays : List ((Nat × Nat) × String) :=
  [((3, 8), "AUSTRALIA"),
   ((3, 15), "CHINA"),
   ((3, 29), "JAPAN"),
   ((4, 12), "BAHRAIN"),
   ((4, 19), "SAUDI ARABIA"),
   ((5, 3), "MIAMI"),
   ((5, 24), "CANADA"),
   ((6, 7), "MONACO"),
   ((6, 14), "BARCELONA"),
   ((6, 28), "AUSTRIA"),
   ((7, 5), "GREAT BRITAIN"),
   ((7, 19), "BELGIUM"),
   ((7, 26), "HUNGARY"),
   ((8, 23), "NETHERLANDS"),
   ((9, 6), "ITALY"),
   ((9, 13), "MADRID"),
   ((9, 26), "AZERBAIJAN"),
   ((10, 11), "SINGAPORE"),
   ((10, 25), "AUSTIN"),
   ((11, 1), "MEXICO"),
   ((11, 8), "BRAZIL"),
   ((11, 21), "LAS VEGAS"),
   ((11, 29), "QATAR"),
   ((12, 6), "ABU DHABI")]

/-- The static `COUNTRY_FLAG_CODES` table: event name ↦ ISO 2-letter code. -/
def COUNTRY_FLAG_CODES : List (String × String) :=
  [("AUSTRALIA", "au"),
   ("CHINA", "cn"),
   ("JAPAN", "jp"),
   ("BAHRAIN", "bh"),
   ("SAUDI ARABIA", "sa"),
   ("MIAMI", "us"),
   ("CANADA", "ca"),
   ("MONACO", "mc"),
   ("BARCELONA", "es"),
   ("SPAIN (BARCELONA)", "es"),
   ("AUSTRIA", "at"),
   ("GREAT BRITAIN", "gb"),
   ("BELGIUM", "be"),
   ("HUNGARY", "hu"),
   ("NETHERLANDS", "nl"),
   ("ITALY", "it"),
   ("MADRID", "es"),
   ("AZERBAIJAN", "az"),
   ("SINGAPORE", "sg"),
   ("AUSTIN", "us"),
   ("MEXICO", "mx"),
   ("BRAZIL", "br"),
   ("LAS VEGAS", "us"),
   ("QATAR", "qa"),
   ("ABU DHABI", "ae")]

/-- First-match association-list lookup, the model of Python `dict.get`
(keys in these tables are unique, so first match is the match). -/
def alist_get {β : Type} : List (String × β) → String → Option β
  | [], _ => none
  | (k, v) :: rest, key => if k = key then some v else alist_get rest key

/-- Gregorian leap-year test, as Python's `calendar.isleap`. -/
def is_leap (y : Nat) : Bool :=
  (y % 4 == 0 && y % 100 != 0) || y % 400 == 0

/-- Number of days in month `m` of year `y` (Gregorian). -/
def days_in_month (y m : Nat) : Nat :=
  if m = 2 then (if is_leap y then 29 else 28)
  else if m = 4 ∨ m = 6 ∨ m = 9 ∨ m = 11 then 30
  else 31

/-- Days in all years before year `y`, as Python's `datetime._days_before_year`. -/
def days_before_year (y : Nat) : Nat :=
  365 * (y - 1) + (y - 1) / 4 - (y - 1) / 100 + (y - 1) / 400

/-- Days in year `y` before month `m`. -/
def days_before_month (y m : Nat) : Nat :=
  ((List.range (m - 1)).map (fun k => days_in_month y (k + 1))).sum

/-- Proleptic-Gregorian ordinal of a date, day 1 being 0001-01-01,
as Python's `date.toordinal`. -/
def date_toordinal (y m d : Nat) : Nat :=
  days_before_year y + days_before_month y m + d

/-- Weekday of a date with Monday = 0 … Sunday = 6, as Python's
`date.weekday()` (0001-01-01 was a Monday). -/
def weekday (y m d : Nat) : Nat :=
  (date_toordinal y m d + 6) % 7

/-- Independent cross-check of the weekday computation: Zeller's congruence,
returning 0 = Saturday, 1 = Sunday, …, 6 = Friday. -/
def zeller (y m d : Nat) : Nat :=
  let mz := if m ≤ 2 then m + 12 else m
  let yz := if m ≤ 2 then y - 1 else y
  let K := yz % 100
  let J := yz / 100
  (d + (13 * (mz + 1)) / 5 + K + K / 4 + J / 4 + 5 * J) % 7

/-- The day matrix of `month_weeks(month)` in the script:
`calendar.Calendar(firstweekday=6).monthdayscalendar(2026, month)`.
Weeks start on Sunday; cells outside the month are the sentinel 0; the
number of rows is however many weeks the month spans. With Python's
Monday-0 weekday convention and `firstweekday = 6`, the number of leading
blank cells is `(weekday(first of month) - 6) % 7 = (weekday + 1) % 7`. -/
def month_weeks (month : Nat) : List (List Nat) :=
  let n := days_in_month 2026 month
  let lead := (weekday 2026 month 1 + 1) % 7
  let nweeks := (lead + n + 6) / 7
  (List.range nweeks).map (fun w =>
    (List.range 7).map (fun c =>
      let i := 7 * w + c
      if lead ≤ i ∧ i < lead + n then i - lead + 1 else 0))

/-- The matrix `draw_month` actually renders: `month_weeks` padded with
all-sentinel rows until it has 6 rows (`while len(weeks) < 6`). -/
def padded_weeks (month : Nat) : List (List Nat) :=
  let weeks := month_weeks month
  weeks ++ List.replicate (6 - weeks.length) (List.replicate 7 0)

/-- A calendar date, as Python's `datetime.date`. -/
structure Date where
  year : Nat
  month : Nat
  day : Nat
deriving DecidableEq, Repr

/-- The calendar day before a date: `d - timedelta(days=1)`. -/
def date_sub_one (dt : Date) : Date :=
  if 1 < dt.day then ⟨dt.year, dt.month, dt.day - 1⟩
  else if 1 < dt.month then ⟨dt.year, dt.month - 1, days_in_month dt.year (dt.month - 1)⟩
  else ⟨dt.year - 1, 12, 31⟩

/-- The `underline_days` set `draw_month` builds for a given month: for
each table entry in that month, the (month, day) pairs of the event day
and the two days before it. The script stores a Python set; a list
queried by membership models it. -/
def underline_days (month : Nat) : List (Nat × Nat) :=
  race_sundays.foldl
    (fun acc p =>
      if p.1.1 = month then
        let sun : Date := ⟨2026, p.1.1, p.1.2⟩
        let sat := date_sub_one sun
        let fri := date_sub_one sat
        acc ++ [(fri.month, fri.day), (sat.month, sat.day), (sun.month, sun.day)]
      else acc)
    []

/-- The day numbers that actually get an underline in a month's rendered
grid: the day loop skips sentinel cells and underlines cell `day` exactly
when `(month, day) ∈ underline_days`. -/
def rendered_underlines (month : Nat) : List Nat :=
  (padded_weeks month).flatten.filter
    (fun day => day != 0 && (underline_days month).contains (month, day))

/-- The sorted per-month event list of `draw_month`:
`races = [(d, name) for (m, d) in race_sundays if m == month]` followed by
`races.sort(key=lambda t: t[0])`. Python's sort is stable; insertion sort
models it. -/
def insort_by_day (p : Nat × String) : List (Nat × String) → List (Nat × String)
  | [] => [p]
  | q :: rest => if p.1 ≤ q.1 then p :: q :: rest else q :: insort_by_day p rest

/-- Stable sort by day, modelling `list.sort(key=lambda t: t[0])`. -/
def sort_by_day (l : List (Nat × String)) : List (Nat × String) :=
  l.foldr insort_by_day []

/-- The `races` list of `draw_month` for a month: filtered from the table
and sorted by day. -/
def races_of_month (month : Nat) : List (Nat × String) :=
  sort_by_day ((race_sundays.filter (fun p => p.1.1 == month)).map (fun p => (p.1.2, p.2)))

/-- Outcomes of the external stages `get_flag_image` goes through for one
country code, abstracting the filesystem and the network:
`localExists` — `local_path.exists()`;
`localDecode` — result of `ImageReader(str(local_path))`, `none` meaning
the constructor raised;
`netData` — result of `urlopen(url, timeout=5).read()`, `none` meaning a
network error or timeout;
`writeOk` — whether `mkdir`/`write_bytes` succeed;
`remoteDecode` — result of `ImageReader(BytesIO(data))` on fetched bytes,
`none` meaning a decode error. -/
structure FlagEnv (α : Type) where
  localExists : Bool
  localDecode : Option α
  netData : Option (List Nat)
  writeOk : Bool
  remoteDecode : List Nat → Option α

/-- The in-memory `_flag_cache` dict: code ↦ cached value, where the value
`none` is the "unavailable" sentinel (`_flag_cache[cc] = None`). -/
def FlagCache (α : Type) : Type := List (String × Option α)

/-- Lookup in the flag cache, modelling `cc in _flag_cache` /
`_flag_cache[cc]`. -/
def cache_get {α : Type} : FlagCache α → String → Option (Option α)
  | [], _ => none
  | (k, v) :: rest, cc => if k = cc then some v else cache_get rest cc

/-- The observable outcome of one `get_flag_image` call: the returned
value, the cache afterwards, and whether the network fetch was attempted
(the `try: urlopen...` block was entered). -/
structure FlagCall (α : Type) where
  result : Option α
  cache : FlagCache α
  net_attempted : Bool

/-- The `try: fetch from URL, write to disk, decode` block of
`get_flag_image` together with its `except` handler: any failure —
network error, timeout, write failure, decode error — caches the `none`
sentinel and returns it. -/
def net_stage {α : Type} (env : FlagEnv α) (cache : FlagCache α) (cc : String) : FlagCall α :=
  match env.netData with
  | none => ⟨none, (cc, none) :: cache, true⟩
  | some data =>
    if env.writeOk then
      match env.remoteDecode data with
      | some img => ⟨some img, (cc, some img) :: cache, true⟩
      | none => ⟨none, (cc, none) :: cache, true⟩
    else ⟨none, (cc, none) :: cache, true⟩

/-- `get_flag_image(cc)` of the script, with the `_flag_cache` state
passed explicitly and the external world as a `FlagEnv`: memory cache
hit; else local file (a decode failure falls through via `except: pass`);
else the network stage. -/
def get_flag_image {α : Type} (env : FlagEnv α) (cache : FlagCache α) (cc : String) :
    FlagCall α :=
  match cache_get cache cc with
  | some v => ⟨v, cache, false⟩
  | none =>
    if env.localExists then
      match env.localDecode with
      | some img => ⟨some img, (cc, some img) :: cache, false⟩
      | none => net_stage env cache cc
    else net_stage env cache cc

/-- One line of the race list under a month grid, as drawn by the loop at
the end of `draw_month`: the text `f"{d:02d} – {name}"` at x-coordinate
`text_indent`, plus the flag image if one was drawn. -/
structure RaceLine (α : Type) where
  day : Nat
  name : String
  text_x : Rat
  flag : Option α

/-- Width reserved for the flag icon, `flag_w = 14` points. -/
def flag_w : Rat := 14

/-- The race-list drawing loop of `draw_month` over a `races` list: for
each race, an optional flag (only when `COUNTRY_FLAG_CODES.get(name)` is
a truthy code and the provider yields an image) and the text, always at
`text_indent = grid_left + flag_w + 4`. `flag_img` abstracts
`get_flag_image` (its cache state does not affect geometry). -/
def draw_race_lines {α : Type} (grid_left : Rat) (races : List (Nat × String))
    (flag_img : String → Option α) : List (RaceLine α) :=
  races.map (fun p =>
    { day := p.1
      name := p.2
      text_x := grid_left + flag_w + 4
      flag :=
        match alist_get COUNTRY_FLAG_CODES p.2 with
        | some cc => if cc = "" then none else flag_img cc
        | none => none })

/-- The month-block placement loop of `make_poster`: `month = 1`, then
`for r in range(4): for col in range(3): draw_month(..., month); month += 1`.
Each element is `(r, col, month)` for one drawn block. -/
def make_poster_blocks : List (Nat × Nat × Nat) :=
  (((List.range 4).flatMap (fun r => (List.range 3).map (fun col => (r, col)))).foldl
    (fun (acc : List (Nat × Nat × Nat) × Nat) rc =>
      ((rc.1, rc.2, acc.2) :: acc.1, acc.2 + 1))
    ([], 1)).1.reverse

/-- The pages `make_poster` emits: one `showPage()` call after the block
loop, then `save()` — a single page holding all drawn blocks. -/
def make_poster_pages : List (List (Nat × Nat × Nat)) :=
  [make_poster_blocks]

/-- The "Saturday" of a race weekend as `draw_month` computes it:
`sat = sun - timedelta(days=1)`. -/
def race_sat (m d : Nat) : Date :=
  date_sub_one ⟨2026, m, d⟩

/-- The "Friday" of a race weekend as `draw_month` computes it:
`fri = sun - timedelta(days=2)`. -/
def race_fri (m d : Nat) : Date :=
  date_sub_one (date_sub_one ⟨2026, m, d⟩)

theorem cache_get_insert (α : Type) (cache : FlagCache α) (cc : String) (v : Option α) :
    cache_get ((cc, v) :: cache) cc = some v := by
  simp [cache_get]

theorem get_flag_image_of_cached (α : Type) (env : FlagEnv α) (cache : FlagCache α)
    (cc : String) (v : Option α) (h : cache_get cache cc = some v) :
    get_flag_image env cache cc = ⟨v, cache, false⟩ := by
  unfold get_flag_image
  rw [h]

theorem net_stage_cache_result (α : Type) (env : FlagEnv α) (cache : FlagCache α) (cc : String) :
    cache_get (net_stage env cache cc).cache cc = some (net_stage env cache cc).result := by
  unfold net_stage
  cases hd : env.netData with
  | none => simp [cache_get]
  | some data =>
    cases hw : env.writeOk
    · simp [cache_get]
    · cases hr : env.remoteDecode data <;> simp [cache_get, hr]

theorem get_flag_image_cache_result (α : Type) (env : FlagEnv α) (cache : FlagCache α)
    (cc : String) :
    cache_get (get_flag_image env cache cc).cache cc = some (get_flag_image env cache cc).result := by
  unfold get_flag_image
  cases h : cache_get cache cc with
  | some v => simpa using h
  | none =>
    cases hE : env.localExists
    · simpa using net_stage_cache_result α env cache cc
    · cases hL : env.localDecode with
      | some img => simp [cache_get]
      | none => simpa using net_stage_cache_result α env cache cc

theorem net_stage_fail (α : Type) (env : FlagEnv α) (cache : FlagCache α) (cc : String)
    (hnet : env.netData = none ∨ env.writeOk = false ∨ ∀ data, env.remoteDecode data = none) :
    net_stage env cache cc = ⟨none, (cc, none) :: cache, true⟩ := by
  unfold net_stage
  rcases hnet with h | h | h
  · rw [h]
  · cases hd : env.netData with
    | none => rfl
    | some data => simp [h]
  · cases hd : env.netData with
    | none => rfl
    | some data =>
      cases hw : env.writeOk <;> simp [hw, h data]

/-- C1 (counterexample): the claim "every entry of the race table falls on
a Sunday" is false at the concrete entry ((11, 21), "LAS VEGAS"): 21
November 2026 is a Saturday, both by the ordinal weekday computation
(Monday = 0, so Sunday is 6 and Saturday is 5) and by Zeller's congruence
(Saturday = 0, Sunday = 1). The entry ((9, 26), "AZERBAIJAN") fails the
same way. -/
theorem C1_counterexample :
    ((11, 21), "LAS VEGAS") ∈ race_sundays ∧
    ¬ weekday 2026 11 21 = 6 ∧
    weekday 2026 11 21 = 5 ∧ zeller 2026 11 21 = 0 ∧
    ((9, 26), "AZERBAIJAN") ∈ race_sundays ∧
    ¬ weekday 2026 9 26 = 6 ∧
    weekday 2026 9 26 = 5 ∧ zeller 2026 9 26 = 0 := by
  decide

/-- C1 (amended): every entry (month, day) of the static race table lands
on a Sunday of 2026 — per the standard proleptic-Gregorian weekday
computation, Monday = 0 — except ((9, 26), "AZERBAIJAN") and
((11, 21), "LAS VEGAS"), which land on Saturdays. -/
theorem C1_amended :
    (∀ i : Fin race_sundays.length,
      ((race_sundays.get i).1 = (9, 26) ∨ (race_sundays.get i).1 = (11, 21)) ∨
        weekday 2026 (race_sundays.get i).1.1 (race_sundays.get i).1.2 = 6) ∧
    weekday 2026 9 26 = 5 ∧ weekday 2026 11 21 = 5 := by
  decide

/-- C2: for every table entry with month M and day D, the set of days
underlined in month M's rendered grid contains D; it contains the day
numbers of the two preceding calendar days exactly when those days fall
in month M; and a weekend day falling in the prior month is underlined
neither in month M's block (the left side of each iff) nor in the prior
month's block (the final two conjuncts). -/
theorem C2 :
    ∀ p ∈ race_sundays,
      p.1.2 ∈ rendered_underlines p.1.1 ∧
      ((race_sat p.1.1 p.1.2).day ∈ rendered_underlines p.1.1 ↔
        (race_sat p.1.1 p.1.2).month = p.1.1) ∧
      ((race_fri p.1.1 p.1.2).day ∈ rendered_underlines p.1.1 ↔
        (race_fri p.1.1 p.1.2).month = p.1.1) ∧
      ((race_sat p.1.1 p.1.2).month ≠ p.1.1 →
        (race_sat p.1.1 p.1.2).day ∉ rendered_underlines (race_sat p.1.1 p.1.2).month) ∧
      ((race_fri p.1.1 p.1.2).month ≠ p.1.1 →
        (race_fri p.1.1 p.1.2).day ∉ rendered_underlines (race_fri p.1.1 p.1.2).month) := by
  decide

/-- C2 witness: the theorem applied at the entry ((11, 1), "MEXICO"),
whose weekend crosses into October: 1 is underlined in November, while
Oct 31 and Oct 30 are underlined in neither block. -/
theorem C2_witness :
    1 ∈ rendered_underlines 11 ∧
    ((race_sat 11 1).day ∈ rendered_underlines 11 ↔ (race_sat 11 1).month = 11) ∧
    ((race_fri 11 1).day ∈ rendered_underlines 11 ↔ (race_fri 11 1).month = 11) ∧
    ((race_sat 11 1).month ≠ 11 →
      (race_sat 11 1).day ∉ rendered_underlines (race_sat 11 1).month) ∧
    ((race_fri 11 1).month ≠ 11 →
      (race_fri 11 1).day ∉ rendered_underlines (race_fri 11 1).month) :=
  C2 ((11, 1), "MEXICO") (by decide)

/-- C3: for every month 1–12, the rendered day matrix — `month_weeks`
padded to 6 rows as in `draw_month` — has exactly 6 rows of exactly 7
cells, and its non-sentinel entries number the days of that month of
2026. -/
theorem C3 :
    ∀ m : Fin 12,
      (padded_weeks (m.val + 1)).length = 6 ∧
      (padded_weeks (m.val + 1)).map List.length = List.replicate 6 7 ∧
      ((padded_weeks (m.val + 1)).flatten.filter (fun d => d != 0)).length =
        days_in_month 2026 (m.val + 1) := by
  decide

/-- C4: when resolution of a code fails — the in-memory cache is fresh,
the local stage yields no image (missing file or decode error), and the
network stage fails at any of its points (network error/timeout, write
failure, or remote decode error) — `get_flag_image` returns `none`,
records the `none` sentinel in the cache, and any later call for that
code in the same run returns `none` from the cache without entering the
network-fetch block. -/
theorem C4 (α : Type) (env env' : FlagEnv α) (cache : FlagCache α) (cc : String)
    (hfresh : cache_get cache cc = none)
    (hlocal : env.localExists = false ∨ env.localDecode = none)
    (hnet : env.netData = none ∨ env.writeOk = false ∨ ∀ data, env.remoteDecode data = none) :
    (get_flag_image env cache cc).result = none ∧
    cache_get (get_flag_image env cache cc).cache cc = some none ∧
    get_flag_image env' (get_flag_image env cache cc).cache cc =
      ⟨none, (get_flag_image env cache cc).cache, false⟩ := by
  have hns : net_stage env cache cc = ⟨none, (cc, none) :: cache, true⟩ :=
    net_stage_fail α env cache cc hnet
  have hg : get_flag_image env cache cc = ⟨none, (cc, none) :: cache, true⟩ := by
    unfold get_flag_image
    rw [hfresh]
    rcases hlocal with h | h
    · rw [h]
      simpa using hns
    · cases hE : env.localExists
      · simpa using hns
      · rw [h]
        simpa using hns
  rw [hg]
  refine ⟨rfl, cache_get_insert α cache cc none, ?_⟩
  exact get_flag_image_of_cached α env' ((cc, none) :: cache) cc none
    (cache_get_insert α cache cc none)

/-- C4 witness: the theorem at a concrete failing environment over
`Nat`-valued image handles — no local file, network down — with a fresh
cache and code "xx". -/
theorem C4_witness :
    (get_flag_image (⟨false, none, none, false, fun _ => none⟩ : FlagEnv Nat) [] "xx").result
        = none ∧
    cache_get
        (get_flag_image (⟨false, none, none, false, fun _ => none⟩ : FlagEnv Nat) [] "xx").cache
        "xx" = some none ∧
    get_flag_image (⟨true, some 7, some [1], true, fun _ => some 9⟩ : FlagEnv Nat)
        (get_flag_image (⟨false, none, none, false, fun _ => none⟩ : FlagEnv Nat) [] "xx").cache
        "xx" =
      ⟨none,
       (get_flag_image (⟨false, none, none, false, fun _ => none⟩ : FlagEnv Nat) [] "xx").cache,
       false⟩ :=
  C4 Nat ⟨false, none, none, false, fun _ => none⟩ ⟨true, some 7, some [1], true, fun _ => some 9⟩
    [] "xx" rfl (Or.inl rfl) (Or.inl rfl)

/-- C5: a second `get_flag_image` call with the same code is a pure
in-memory cache hit: it returns exactly the value of the first call,
leaves the cache unchanged, and does not enter the network-fetch block —
in particular, after a failed first resolution every later call yields
`none` with no second network attempt, whatever the world `env'` now
looks like. -/
theorem C5 (α : Type) (env env' : FlagEnv α) (cache : FlagCache α) (cc : String) :
    get_flag_image env' (get_flag_image env cache cc).cache cc =
      ⟨(get_flag_image env cache cc).result, (get_flag_image env cache cc).cache, false⟩ :=
  get_flag_image_of_cached α env' (get_flag_image env cache cc).cache cc
    (get_flag_image env cache cc).result (get_flag_image_cache_result α env cache cc)

/-- C6: for every month 1–12 the rendered event list is sorted strictly
ascending by day, and ties are impossible: the (month, day) keys of the
source table have no duplicate. -/
theorem C6 :
    (∀ m : Fin 12,
      List.Pairwise (fun a b => a < b) ((races_of_month (m.val + 1)).map Prod.fst)) ∧
    List.Pairwise (fun a b => a ≠ b) (race_sundays.map Prod.fst) := by
  decide

/-- C7: one emitted page; exactly 12 month blocks drawn on it; the event
lines drawn across all blocks — one per entry of that block's `races`
list — total the size of the race table, 24. -/
theorem C7 :
    make_poster_pages.length = 1 ∧
    make_poster_blocks.length = 12 ∧
    (make_poster_blocks.map (fun b => (races_of_month b.2.2).length)).sum =
      race_sundays.length ∧
    race_sundays.length = 24 := by
  decide

/-- C8: the placement loop assigns months to the 3×4 page grid row-major:
each drawn block (r, c, month) satisfies month = 3r + c + 1, and the 12
blocks cover months 1 through 12 in order. -/
theorem C8 :
    make_poster_blocks.length = 12 ∧
    (∀ i : Fin make_poster_blocks.length,
      (make_poster_blocks.get i).2.2 =
        3 * (make_poster_blocks.get i).1 + (make_poster_blocks.get i).2.1 + 1) ∧
    make_poster_blocks.map (fun b => b.2.2) = (List.range 12).map (fun k => k + 1) := by
  decide

/-- C9: the race-list loop draws one line per race whatever the flag
lookup yields — an event with no known flag code still appears — and
every line's text x-position is grid-left + flag width + gap
(`text_indent = grid_left + flag_w + 4`), independent of the flag
provider. -/
theorem C9 (α : Type) (grid_left : Rat) (races : List (Nat × String))
    (flag_img : String → Option α) :
    (draw_race_lines grid_left races flag_img).map (fun l => (l.day, l.name)) = races ∧
    (draw_race_lines grid_left races flag_img).map (fun l => l.text_x) =
      races.map (fun _ => grid_left + flag_w + 4) := by
  refine ⟨?_, ?_⟩
  · induction races with
    | nil => rfl
    | cons q qs ih => simpa [draw_race_lines] using ih
  · induction races with
    | nil => rfl
    | cons q qs ih => simpa [draw_race_lines] using ih

/-- C10: every event name of the race table is a key of
`COUNTRY_FLAG_CODES` with a non-empty code, so `COUNTRY_FLAG_CODES.get(name)`
is never falsy on the fixture and the blank-flag branch of the race-list
loop is unreachable. -/
theorem C10 :
    ∀ p ∈ race_sundays,
      (alist_get COUNTRY_FLAG_CODES p.2).isSome = true ∧
      alist_get COUNTRY_FLAG_CODES p.2 ≠ some "" := by
  decide

/-- C10 witness: the theorem at the concrete entry ((3, 8), "AUSTRALIA"). -/
theorem C10_witness :
    (alist_get COUNTRY_FLAG_CODES "AUSTRALIA").isSome = true ∧
    alist_get COUNTRY_FLAG_CODES "AUSTRALIA" ≠ some "" :=
  C10 ((3, 8), "AUSTRALIA") (by decide)

end Season2026
